import Mathlib

/-!
Shallow embedding of the clinical-note analysis engine: the nlp-processor
pipeline (section splitting, finding detection, conflict resolution,
qualification decision) together with the specialist-hierarchy module.

Strings are processed over their character lists; JavaScript string
primitives (substring, includes, lastIndexOf, split-by-delimiter,
word-boundary search) are reproduced as explicit Lean functions below.
Dates are modelled as integers (epoch order is all the code uses), and the
wall-clock read used for the 6-month recency window is passed in as an
explicit `sixMonthsAgo` parameter.
-/

/-- JS-style substring membership test: does `sub` occur contiguously in `hay`? -/
def listIncludes (hay sub : List Char) : Bool :=
  match hay with
  | [] => sub.isEmpty
  | _ :: t => sub.isPrefixOf hay || listIncludes t sub

/-- `String.includes` of JavaScript. -/
def strIncludes (s sub : String) : Bool :=
  listIncludes s.data sub.data

/-- `String.endsWith` of JavaScript. -/
def strEndsWith (s suffix2 : String) : Bool :=
  suffix2.data.isSuffixOf s.data

/-- JS `s.substring(a, b)` for `a ≤ b` (clamped at the string end). -/
def strSubstr (s : String) (a b : Nat) : String :=
  String.mk ((s.data.drop a).take (b - a))

/-- JS `s.lastIndexOf(sub)`: the greatest index at which `sub` occurs, if any. -/
def lastIndexOfStr (s sub : String) : Option Nat :=
  (List.range (s.length + 1)).foldl
    (fun acc i => if sub.data.isPrefixOf (s.data.drop i) then some i else acc) none

/-- First-occurrence-order deduplication (JS `Array.from(new Set(xs))`). -/
def dedupFirst (xs : List String) : List String :=
  xs.foldl (fun acc x => if acc.contains x then acc else acc ++ [x]) []

/-- ASCII lower-casing of one character (JS `toLowerCase` on the ASCII range,
which is all the engine's vocabulary and cue lists use). -/
def asciiLowerChar (c : Char) : Char :=
  if 'A' ≤ c && c ≤ 'Z' then Char.ofNat (c.toNat + 32) else c

/-- ASCII upper-casing of one character. -/
def asciiUpperChar (c : Char) : Char :=
  if 'a' ≤ c && c ≤ 'z' then Char.ofNat (c.toNat - 32) else c

/-- JS `s.toLowerCase()` (ASCII range). -/
def strLower (s : String) : String :=
  String.mk (s.data.map asciiLowerChar)

/-- JS `s.toUpperCase()` (ASCII range). -/
def strUpper (s : String) : String :=
  String.mk (s.data.map asciiUpperChar)

/-- JS whitespace (`\s` on the ASCII range): space and the 0x09-0x0D controls. -/
def isJsSpace (c : Char) : Bool :=
  c = ' ' || ('\t' ≤ c && c ≤ '\x0d')

/-- JS `s.trim()`. -/
def strTrim (s : String) : String :=
  String.mk (((s.data.dropWhile isJsSpace).reverse.dropWhile isJsSpace).reverse)

/-- Regex `\w`: ASCII word character. -/
def isWordChar (c : Char) : Bool :=
  c.isAlphanum || c = '_'

/-- Is the character at index `i` a word character (out of range counts as non-word)? -/
def wordAt (full : List Char) (i : Nat) : Bool :=
  match full[i]? with
  | some c => isWordChar c
  | none => false

/-- Regex `\b`: word-boundary at position `i` (between characters `i-1` and `i`). -/
def boundaryAt (full : List Char) (i : Nat) : Bool :=
  (if i = 0 then false else wordAt full (i - 1)) != wordAt full i

/-- Left-to-right non-overlapping occurrences of `pat` in `full` that sit
between word boundaries, scanning from index `i` (mirrors the `regex.exec`
loop over pattern `\bvariation\b`). The fuel argument only bounds the number
of scan steps; each step advances `i` by at least one, so starting fuel
`full.length + 1` is never exhausted. -/
def findOccsFuel (full pat : List Char) : Nat → Nat → List Nat
  | 0, _ => []
  | fuel + 1, i =>
    if pat.isPrefixOf (full.drop i) && boundaryAt full i &&
        boundaryAt full (i + pat.length) then
      i :: findOccsFuel full pat fuel (i + pat.length)
    else if i < full.length then
      findOccsFuel full pat fuel (i + 1)
    else
      []

/-- All word-boundary-safe match start indices of `pat` in `text`. -/
def findOccurrences (text pat : List Char) : List Nat :=
  match pat with
  | [] => []
  | _ :: _ => findOccsFuel text pat (text.length + 1) 0

/-! ## Data model -/

/-- A clinical vocabulary term (identity, surface variants, weight).
Modelled from the spec: the `clinical-terms` module itself is not in the
repository snapshot; per §3 a term is an identity string, an ordered list of
lowercase surface-form variants, and an integer weight. -/
structure ClinicalTerm where
  term : String
  variations : List String
  weight : Nat
deriving DecidableEq

/-- The static vocabulary/pattern configuration consumed by the pipeline.
Modelled from the spec: the `clinical-terms` module (term category lists and
the negation / presence / uncertainty cue lists) is imported by the analysis
pipeline but its source is not in the repository snapshot; per §3/§4.3 it is a
static catalogue, re-expressed here (as §9 suggests) as an immutable
configuration passed explicitly, so every theorem below holds for all
instantiations, in particular for the repository's concrete tables. -/
structure ClinicalVocab where
  cardiacSymptoms : List ClinicalTerm
  cardiacHistory : List ClinicalTerm
  cardiacFindings : List ClinicalTerm
  riskFactors : List ClinicalTerm
  negationPatterns : List String
  presencePatterns : List String
  uncertainPatterns : List String
  compoundNegationPrefixes : List String
  negatedCompoundTerms : List String

/-- `ALL_CLINICAL_TERMS`: the four category tables in one list. -/
def ClinicalVocab.allTerms (v : ClinicalVocab) : List ClinicalTerm :=
  v.cardiacSymptoms ++ v.cardiacHistory ++ v.cardiacFindings ++ v.riskFactors

/-- `SpecialistInfo` of specialist-hierarchy.ts. -/
structure SpecialistInfo where
  name : String
  variations : List String
  priority : Nat
  weight : Nat
deriving DecidableEq

/-- `DetectedSpecialist` of specialist-hierarchy.ts. -/
structure DetectedSpecialist where
  name : String
  priority : Nat
  weight : Nat
  matchedText : String
deriving DecidableEq

/-- `SPECIALIST_HIERARCHY` table of specialist-hierarchy.ts, in source order. -/
def SPECIALIST_HIERARCHY : List SpecialistInfo := [
  { name := "Cardiologist",
    variations := ["cardiologist", "cardiology", "cardiology consult",
      "cardiology note", "cardiac specialist", "heart specialist"],
    priority := 1, weight := 10 },
  { name := "Interventional Cardiologist",
    variations := ["interventional cardiologist", "interventional cardiology",
      "cath lab", "cardiac catheterization"],
    priority := 1, weight := 10 },
  { name := "Electrophysiologist",
    variations := ["electrophysiologist", "electrophysiology", "ep study",
      "ep lab", "cardiac ep"],
    priority := 1, weight := 10 },
  { name := "Cardiac Surgeon",
    variations := ["cardiac surgeon", "cardiothoracic surgeon", "ct surgery",
      "cardiac surgery", "cardiothoracic surgery", "heart surgeon"],
    priority := 1, weight := 10 },
  { name := "Emergency Department",
    variations := ["emergency department", "ed", "emergency medicine", "er",
      "emergency room", "emergency visit", "ed visit", "emergency physician"],
    priority := 2, weight := 8 },
  { name := "Hospital Admission",
    variations := ["hospital admission", "inpatient", "admission note",
      "admitted", "hospitalized", "inpatient note", "discharge summary"],
    priority := 2, weight := 8 },
  { name := "Intensivist",
    variations := ["intensivist", "icu", "critical care", "intensive care",
      "ccu", "cardiac icu", "micu", "critical care medicine"],
    priority := 2, weight := 8 },
  { name := "Pulmonologist",
    variations := ["pulmonologist", "pulmonary", "pulmonology",
      "pulmonary medicine", "lung specialist"],
    priority := 2, weight := 8 },
  { name := "Internal Medicine",
    variations := ["internal medicine", "internist", "medicine", "im",
      "internal med"],
    priority := 2, weight := 8 },
  { name := "Hospitalist",
    variations := ["hospitalist", "hospital medicine", "inpatient medicine"],
    priority := 2, weight := 8 },
  { name := "Primary Care Physician",
    variations := ["primary care physician", "pcp", "primary care",
      "primary care provider", "primary doctor"],
    priority := 3, weight := 5 },
  { name := "Family Medicine",
    variations := ["family medicine", "family practice", "family physician",
      "family doctor", "fp"],
    priority := 3, weight := 5 },
  { name := "General Practice",
    variations := ["general practice", "general practitioner", "gp"],
    priority := 3, weight := 5 },
  { name := "Other Specialist",
    variations := ["urology", "urologist", "dermatology", "dermatologist",
      "orthopedics", "orthopedic", "ophthalmology", "ophthalmologist",
      "neurology", "neurologist", "gastroenterology", "gastroenterologist",
      "endocrinology", "endocrinologist", "rheumatology", "rheumatologist",
      "psychiatry", "psychiatrist", "routine follow-up", "follow up visit",
      "follow-up"],
    priority := 4, weight := 2 }]

/-- The inner loop of `detectSpecialist`: first variant of one hierarchy entry
occurring as a substring of the lower-cased text. -/
def specScan (lowerText : String) (specialist : SpecialistInfo) :
    Option DetectedSpecialist :=
  specialist.variations.findSome? fun variation =>
    if strIncludes lowerText variation then
      some { name := specialist.name, priority := specialist.priority,
             weight := specialist.weight, matchedText := variation }
    else
      none

/-- `detectSpecialist` of specialist-hierarchy.ts: first table entry one of
whose variants occurs as a substring of the lower-cased text. -/
def detectSpecialist (text : String) : Option DetectedSpecialist :=
  SPECIALIST_HIERARCHY.findSome? (specScan (strLower text))

/-- `ConflictResolution.winner` values of specialist-hierarchy.ts. -/
inductive ConflictWinner
  | first
  | second
  | manualReview
deriving DecidableEq

/-- `ConflictResolution` of specialist-hierarchy.ts. -/
structure ConflictResolution where
  resolved : Bool
  winner : ConflictWinner
  reason : String
deriving DecidableEq

/-- Reason string for a priority win in `resolveSpecialistConflict`. -/
def higherPriorityReason (a b : DetectedSpecialist) : String :=
  "Higher priority: " ++ a.name ++ " (priority " ++ toString a.priority ++
    ") vs " ++ b.name ++ " (priority " ++ toString b.priority ++ ")"

/-- Reason string for an unresolved same-priority conflict. -/
def samePriorityReason (a : DetectedSpecialist) : String :=
  "Conflicting assessments at same priority level (" ++ a.name ++ ")"

/-- `resolveSpecialistConflict` of specialist-hierarchy.ts. The code computes
`sixMonthsAgo` from the wall clock (`new Date()`, minus six months); here that
clock read is the explicit `sixMonthsAgo` parameter, and dates are integers. -/
def resolveSpecialistConflict (sixMonthsAgo : Int)
    (specialist1 specialist2 : Option DetectedSpecialist)
    (date1 date2 : Option Int) : ConflictResolution :=
  match specialist1, specialist2 with
  | none, some _ => ⟨true, .second, "Only second source available"⟩
  | some _, none => ⟨true, .first, "Only first source available"⟩
  | none, none => ⟨false, .manualReview, "No specialist information"⟩
  | some s1, some s2 =>
    if s1.priority < s2.priority then
      ⟨true, .first, higherPriorityReason s1 s2⟩
    else if s2.priority < s1.priority then
      ⟨true, .second, higherPriorityReason s2 s1⟩
    else
      match date1, date2 with
      | some d1, some d2 =>
        let date1Recent := d1 ≥ sixMonthsAgo
        let date2Recent := d2 ≥ sixMonthsAgo
        if date1Recent ∧ ¬date2Recent then
          ⟨true, .first, "More recent note (within 6 months)"⟩
        else if date2Recent ∧ ¬date1Recent then
          ⟨true, .second, "More recent note (within 6 months)"⟩
        else if d1 > d2 then
          ⟨true, .first, "More recent date"⟩
        else if d2 > d1 then
          ⟨true, .second, "More recent date"⟩
        else
          ⟨false, .manualReview, samePriorityReason s1⟩
      | _, _ => ⟨false, .manualReview, samePriorityReason s1⟩

/-- `DetectedFinding` of nlp-processor. The float confidence score is modelled
exactly in hundredths as an integer (all values the code produces are multiples
of 0.01). -/
structure DetectedFinding where
  term : ClinicalTerm
  matchedText : String
  isPresent : Bool
  isNegated : Bool
  isUncertain : Bool
  isExplicitlyConfirmed : Bool
  context : String
  specialist : Option DetectedSpecialist
  providerName : Option String
  date : Option Int
  dateString : Option String
  confidence : Int
deriving DecidableEq

/-- `NoteSection` of nlp-processor. -/
structure NoteSection where
  text : String
  specialist : Option DetectedSpecialist
  providerName : Option String
  date : Option Int
  dateString : Option String
deriving DecidableEq

/-- One source statement of a `conflictingInfo` entry. -/
structure ConflictSource where
  specialty : String
  assessment : String
  date : Option String
deriving DecidableEq

/-- One `conflictingInfo` entry (a ConflictRecord). -/
structure ConflictInfo where
  finding : String
  sources : List ConflictSource
deriving DecidableEq

/-- One `clinicalCitations` entry. -/
structure Citation where
  finding : String
  specialty : String
  provider : Option String
  date : Option String
  priority : Nat
deriving DecidableEq

/-- Qualification status values of `AnalysisResult.qualificationStatus`. -/
inductive QualStatus
  | qualified
  | notQualified
  | reviewNeeded
  | insufficientInformation
deriving DecidableEq

/-- Confidence level values of `AnalysisResult.confidenceLevel`. -/
inductive ConfidenceLevel
  | high
  | medium
  | low
deriving DecidableEq

/-- `ExtractedPatientInfo` of nlp-processor. -/
structure ExtractedPatientInfo where
  mrn : Option String
  orderingProvider : Option String
  allProviders : List String
deriving DecidableEq

/-- `AnalysisResult` of nlp-processor. -/
structure AnalysisResult where
  qualificationStatus : QualStatus
  primaryIndication : Option String
  supportingFindings : List String
  clinicalCitations : List Citation
  conflictingInfo : List ConflictInfo
  confidenceLevel : ConfidenceLevel
  allFindings : List DetectedFinding
  extractedInfo : ExtractedPatientInfo
  insufficientReason : Option String
deriving DecidableEq

/-! ## Finding detector -/

/-- `isNegatedCompoundTerm`: is the matched text itself a negated compound
form (e.g. "nonsmoker")? -/
def isNegatedCompoundTerm (v : ClinicalVocab) (matchedText : String) : Bool :=
  let lowerMatch := strLower matchedText
  v.negatedCompoundTerms.any fun term =>
    strIncludes lowerMatch term || strIncludes term lowerMatch

/-- `isNegated`: negated-compound match, compound negation prefix immediately
before the match, or a negation cue in the preceding 80 characters with no
sentence break between cue and match. -/
def isNegatedAt (v : ClinicalVocab) (text : String) (matchStart : Nat)
    (matchedText : String) : Bool :=
  if isNegatedCompoundTerm v matchedText then
    true
  else
    let contextBefore := strLower (strSubstr text (matchStart - 80) matchStart)
    let immediateContext := strLower (strSubstr text (matchStart - 10) matchStart)
    if v.compoundNegationPrefixes.any (fun pfx =>
        strEndsWith (strTrim immediateContext) pfx ||
          strIncludes immediateContext (pfx ++ "-")) then
      true
    else
      v.negationPatterns.any fun negation =>
        match lastIndexOfStr contextBefore negation with
        | none => false
        | some negationIndex =>
          let textAfterNegation :=
            strSubstr contextBefore (negationIndex + negation.length)
              contextBefore.length
          !(strIncludes textAfterNegation "." ||
            strIncludes textAfterNegation "\n" ||
            strIncludes textAfterNegation ";" ||
            strIncludes textAfterNegation " but " ||
            strIncludes textAfterNegation " however ")

/-- `isUncertain`: an uncertainty cue occurs in the preceding 60 characters. -/
def isUncertainAt (v : ClinicalVocab) (text : String) (matchStart : Nat) : Bool :=
  let context := strLower (strSubstr text (matchStart - 60) matchStart)
  v.uncertainPatterns.any fun uncertain => strIncludes context uncertain

/-- `isExplicitlyPresent`: not uncertain, and a presence cue occurs in the
preceding 60 characters with no sentence break before the match. -/
def isExplicitlyPresentAt (v : ClinicalVocab) (text : String)
    (matchStart : Nat) : Bool :=
  let context := strLower (strSubstr text (matchStart - 60) matchStart)
  if isUncertainAt v text matchStart then
    false
  else
    v.presencePatterns.any fun presence =>
      match lastIndexOfStr context presence with
      | none => false
      | some presenceIndex =>
        let textAfterPresence :=
          strSubstr context (presenceIndex + presence.length) context.length
        !(strIncludes textAfterPresence "." ||
          strIncludes textAfterPresence "\n" ||
          strIncludes textAfterPresence ";")

/-- `getContext`: ±100-character snippet around a match, trimmed. -/
def getContext (text : String) (matchStart matchEnd : Nat) : String :=
  strTrim (strSubstr text (matchStart - 100) (min (matchEnd + 100) text.length))

/-- Confidence score of one occurrence, in hundredths (mirrors the float
arithmetic of the source exactly: all addends are multiples of 0.01, and the
specialist adjustment `0.1 * (1 - priority / 5)` is `2 * (5 - priority)`
hundredths for the integer priorities the table contains). -/
def occurrenceConfidence (explicitlyConfirmed negated uncertain : Bool)
    (specialist : Option DetectedSpecialist) : Int :=
  let base : Int :=
    if explicitlyConfirmed && !negated && !uncertain then 90
    else if negated then 85
    else if uncertain then 40
    else 30
  let adjusted :=
    match specialist with
    | some sp => base + 2 * (5 - (sp.priority : Int))
    | none => base
  min adjusted 100

/-- Build the `DetectedFinding` for one occurrence of `variation` at `idx`. -/
def mkFinding (v : ClinicalVocab) (sec : NoteSection) (lowerText : String)
    (term : ClinicalTerm) (variation : String) (idx : Nat) : DetectedFinding :=
  let matchedText := strSubstr lowerText idx (idx + variation.length)
  let negated := isNegatedAt v lowerText idx matchedText
  let uncertain := isUncertainAt v lowerText idx
  let explicitlyConfirmed := isExplicitlyPresentAt v lowerText idx
  { term := term
    matchedText := matchedText
    isPresent := explicitlyConfirmed && !negated && !uncertain
    isNegated := negated
    isUncertain := uncertain
    isExplicitlyConfirmed := explicitlyConfirmed
    context := getContext sec.text idx (idx + matchedText.length)
    specialist := sec.specialist
    providerName := sec.providerName
    date := sec.date
    dateString := sec.dateString
    confidence := occurrenceConfidence explicitlyConfirmed negated uncertain sec.specialist }

/-- `detectFindingsInSection` of nlp-processor: scan the lower-cased section
text for every term variation with word-boundary-safe matching and classify
each occurrence. -/
def detectFindingsInSection (v : ClinicalVocab) (sec : NoteSection) :
    List DetectedFinding :=
  let lowerText := strLower sec.text
  v.allTerms.flatMap fun term =>
    term.variations.flatMap fun variation =>
      (findOccurrences lowerText.data variation.data).map fun idx =>
        mkFinding v sec lowerText term variation idx

/-! ## Conflict resolver -/

/-- Specialist priority of a finding, with a missing specialist treated as 99
(the `?? 99` of the source's `reduce` comparisons). -/
def effPriority (f : DetectedFinding) : Nat :=
  match f.specialist with
  | some s => s.priority
  | none => 99

/-- `reduce((best, current) => current.priority < best.priority ? current : best)`:
first element of minimal effective priority. -/
def mostCredible (f : DetectedFinding) (fs : List DetectedFinding) : DetectedFinding :=
  fs.foldl (fun best current =>
    if effPriority current < effPriority best then current else best) f

/-- Specialty name used in ConflictRecords (`specialist?.name || "Unknown"`). -/
def specName (f : DetectedFinding) : String :=
  match f.specialist with
  | some s => s.name
  | none => "Unknown"

/-- Body of the per-term loop of `resolveConflicts`: split the term's findings
into present / not-present, resolve or record a conflict. -/
def resolveTermGroup (sixMonthsAgo : Int) (termName : String)
    (termFindings : List DetectedFinding) :
    List DetectedFinding × List ConflictInfo :=
  let presentFindings := termFindings.filter fun f => f.isPresent
  let negatedFindings := termFindings.filter fun f => !f.isPresent
  match presentFindings, negatedFindings with
  | p :: ps, n :: ns =>
    let bestPresent := mostCredible p ps
    let bestNegated := mostCredible n ns
    let resolution := resolveSpecialistConflict sixMonthsAgo
      bestPresent.specialist bestNegated.specialist bestPresent.date bestNegated.date
    if resolution.resolved then
      if resolution.winner = .first then ([bestPresent], [])
      else ([bestNegated], [])
    else
      ([bestPresent],
        [{ finding := termName,
           sources := [
             { specialty := specName bestPresent, assessment := "Present",
               date := bestPresent.dateString },
             { specialty := specName bestNegated, assessment := "Absent/Denied",
               date := bestNegated.dateString }] }])
  | p :: ps, [] => ([mostCredible p ps], [])
  | [], n :: ns => ([mostCredible n ns], [])
  | [], [] => ([], [])

/-- `resolveConflicts` of nlp-processor: group findings by term identity (in
first-occurrence key order, as a JS `Map` iterates) and resolve each group. -/
def resolveConflicts (sixMonthsAgo : Int) (findings : List DetectedFinding) :
    List DetectedFinding × List ConflictInfo :=
  (dedupFirst (findings.map fun f => f.term.term)).foldl
    (fun out key =>
      let termFindings := findings.filter fun f => f.term.term == key
      let rc := resolveTermGroup sixMonthsAgo key termFindings
      (out.1 ++ rc.1, out.2 ++ rc.2))
    ([], [])

/-! ## Qualification decision engine -/

/-- Confirmed findings: `isPresent && isExplicitlyConfirmed`. -/
def presentOf (findings : List DetectedFinding) : List DetectedFinding :=
  findings.filter fun f => f.isPresent && f.isExplicitlyConfirmed

/-- Uncertain (non-negated) findings. -/
def uncertainOf (findings : List DetectedFinding) : List DetectedFinding :=
  findings.filter fun f => f.isUncertain && !f.isNegated

/-- Negated findings. -/
def negatedOf (findings : List DetectedFinding) : List DetectedFinding :=
  findings.filter fun f => f.isNegated

/-- Count of findings whose term identity appears in a category table. -/
def countIn (terms : List ClinicalTerm) (fs : List DetectedFinding) : Nat :=
  (fs.filter fun f => terms.any fun t => t.term == f.term.term).length

/-- Sum of the confirmed findings' term weights. -/
def totalWeightOf (fs : List DetectedFinding) : Nat :=
  fs.foldl (fun sum f => sum + f.term.weight) 0

/-- Head of the stable descending-by-weight sort: the first finding attaining
the maximal term weight. -/
def maxWeightFinding : List DetectedFinding → Option DetectedFinding
  | [] => none
  | f :: fs => some (fs.foldl
      (fun best current =>
        if current.term.weight > best.term.weight then current else best) f)

/-- Primary indication: identity of the highest-weight confirmed finding. -/
def primaryOf (fs : List DetectedFinding) : Option String :=
  (maxWeightFinding fs).map fun f => f.term.term

/-- `hasHighPrioritySource`: some confirmed finding has a specialist of
priority ≤ 2. -/
def hasHighPrioritySourceOf (fs : List DetectedFinding) : Bool :=
  fs.any fun f =>
    match f.specialist with
    | some s => s.priority ≤ 2
    | none => false

/-- The source's confidence roll-up (lines 1061-1071 of the processor),
including its unreachable initial `"Medium"` default branch. -/
def rollupConfidence (hasHighPrioritySource hasConflicts : Bool) : ConfidenceLevel :=
  if hasHighPrioritySource && !hasConflicts then .high
  else if hasConflicts || !hasHighPrioritySource then
    (if hasHighPrioritySource then .medium else .low)
  else .medium

/-- Insufficient-information reason naming the uncertain terms. -/
def uncertainReason (uncertainFindings : List DetectedFinding) : String :=
  "The chart mentions possible/suspected conditions (" ++
    String.intercalate ", " (dedupFirst (uncertainFindings.map fun f => f.term.term)) ++
    ") but does not explicitly confirm them. Cannot determine qualification without confirmed clinical findings."

/-- Insufficient-information reason when only negated findings exist. -/
def negatedOnlyReason : String :=
  "The chart only contains denied or negated findings. No positive cardiac indications were explicitly documented."

/-- Insufficient-information reason when no meaningful findings exist. -/
def noEvidenceReason : String :=
  "The chart does not contain explicitly confirmed cardiac symptoms, history, or findings. Cannot determine qualification without documented clinical evidence."

/-- Reason used when the raw input is shorter than 20 trimmed characters. -/
def tooBriefReason : String :=
  "The provided clinical notes are too brief to analyze. Please provide complete clinical documentation."

/-- Result record of `determineQualification`. -/
structure QualDecision where
  status : QualStatus
  primaryIndication : Option String
  confidence : ConfidenceLevel
  insufficientReason : Option String
deriving DecidableEq

/-- `determineQualification` of nlp-processor. -/
def determineQualification (v : ClinicalVocab) (findings : List DetectedFinding)
    (conflicts : List ConflictInfo) : QualDecision :=
  let presentFindings := presentOf findings
  let uncertainFindings := uncertainOf findings
  let negatedFindings := negatedOf findings
  let symptomCount := countIn v.cardiacSymptoms presentFindings
  let historyCount := countIn v.cardiacHistory presentFindings
  let findingsCount := countIn v.cardiacFindings presentFindings
  let riskFactorCount := countIn v.riskFactors presentFindings
  let totalWeight := totalWeightOf presentFindings
  let primaryIndication := primaryOf presentFindings
  let hasHighPrioritySource := hasHighPrioritySourceOf presentFindings
  let hasConflicts := decide (conflicts.length > 0)
  let confidence := rollupConfidence hasHighPrioritySource hasConflicts
  if presentFindings.length = 0 then
    if uncertainFindings.length > 0 then
      ⟨.insufficientInformation, none, .low, some (uncertainReason uncertainFindings)⟩
    else if negatedFindings.length > 0 ∧ findings.length = negatedFindings.length then
      ⟨.insufficientInformation, none, .low, some negatedOnlyReason⟩
    else
      ⟨.insufficientInformation, none, .low, some noEvidenceReason⟩
  else if historyCount > 0 ∨ findingsCount > 0 then
    ⟨.qualified, primaryIndication, confidence, none⟩
  else if symptomCount ≥ 2 then
    ⟨.qualified, primaryIndication, confidence, none⟩
  else if symptomCount ≥ 1 ∧ hasHighPrioritySource then
    ⟨.qualified, primaryIndication, confidence, none⟩
  else if riskFactorCount ≥ 3 ∧ symptomCount ≥ 1 then
    ⟨.qualified, primaryIndication, confidence, none⟩
  else if conflicts.length > 0 then
    ⟨.reviewNeeded, primaryIndication, .low, none⟩
  else if symptomCount = 1 then
    ⟨.reviewNeeded, primaryIndication, .low, none⟩
  else if riskFactorCount ≥ 2 ∧ totalWeight ≥ 6 then
    ⟨.reviewNeeded, primaryIndication, .low, none⟩
  else if uncertainFindings.length > 0 then
    ⟨.reviewNeeded, primaryIndication, .low, none⟩
  else
    ⟨.notQualified, none, confidence, none⟩

/-! ## Section splitter

The three delimiter classes of `splitIntoSections` are JS regex splits; each is
reproduced as a matcher that, at a candidate position (string start or just
after a newline), consumes a delimiter occurrence and returns the remainder. -/

/-- `[-=]` of the rule-marker delimiter. -/
def isRuleChar (c : Char) : Bool :=
  c = '-' || c = '='

/-- Matcher for `(?:^|\n)[-=]{3,}(?:\n|$)` (the leading newline, when present,
is consumed by the caller): a maximal run of 3+ dashes/equals followed by a
newline (consumed) or the end of the string. -/
def matchRuleAt (cs : List Char) : Option (List Char) :=
  let run := cs.takeWhile isRuleChar
  let rest := cs.drop run.length
  if run.length ≥ 3 then
    if rest = [] then some []
    else if rest.head? = some '\n' then some rest.tail
    else none
  else
    none

/-- Keywords of `(?:Note|Visit|Encounter|Progress Note|Consult|Assessment)`. -/
def headingKeywords : List String :=
  ["Note", "Visit", "Encounter", "Progress Note", "Consult", "Assessment"]

/-- Keywords of `(?:Date of Service|DOS|Visit Date)`. -/
def dosKeywords : List String :=
  ["Date of Service", "DOS", "Visit Date"]

/-- Matcher for `(?:^|\n)KEYWORD[\s:]+` with flag `i` (the leading newline is
consumed by the caller): the first alternation keyword matching
case-insensitively and followed by at least one whitespace/colon character;
the greedy `[\s:]+` run is consumed. -/
def matchKeywordAt (keywords : List String) (cs : List Char) : Option (List Char) :=
  keywords.findSome? fun kw =>
    let kl := (strLower kw).data
    if (cs.take kl.length).map asciiLowerChar = kl then
      let rest := cs.drop kl.length
      let ws := rest.takeWhile fun c => isJsSpace c || c = ':'
      if ws.length ≥ 1 then some (rest.drop ws.length) else none
    else
      none

theorem matchRuleAt_le (cs rest : List Char) (h : matchRuleAt cs = some rest) :
    rest.length ≤ cs.length := by
  simp only [matchRuleAt] at h
  split at h
  · split at h
    · cases h
      simp
    · split at h
      · cases h
        simp only [List.length_tail, List.length_drop]
        omega
      · cases h
  · cases h

theorem matchKeywordAt_le (keywords : List String) (cs rest : List Char)
    (h : matchKeywordAt keywords cs = some rest) : rest.length ≤ cs.length := by
  simp only [matchKeywordAt] at h
  obtain ⟨kw, -, hkw⟩ := List.exists_of_findSome?_eq_some h
  split at hkw
  · split at hkw
    · cases hkw
      simp only [List.length_drop]
      omega
    · cases hkw
  · cases hkw

/-- JS `String.split` against a `(?:^|\n)...` delimiter regex, generic in the
matcher: walk the string accumulating the current piece; after each newline
(the newline belongs to the delimiter) try the matcher and, on a match, emit
the piece and continue after the consumed delimiter. The fuel argument only
bounds the number of steps: each step strictly shortens the remaining suffix
(`matchRuleAt_le` / `matchKeywordAt_le` bound the matcher remainders), so the
starting fuel `input.length + 1` is never exhausted. -/
def genSplitCore (matchAt : List Char → Option (List Char)) :
    Nat → List Char → List Char → List (List Char)
  | 0, acc, _ => [acc.reverse]
  | _ + 1, acc, [] => [acc.reverse]
  | fuel + 1, acc, c :: cs =>
    if c = '\n' then
      match matchAt cs with
      | some rest => acc.reverse :: genSplitCore matchAt fuel [] rest
      | none => genSplitCore matchAt fuel (c :: acc) cs
    else
      genSplitCore matchAt fuel (c :: acc) cs

/-- JS `String.split` for a `(?:^|\n)...` delimiter: the `^` alternative can
fire only at position 0 (producing a leading empty piece), after which
`genSplitCore` handles the newline-anchored occurrences. -/
def genSplit (matchAt : List Char → Option (List Char)) (s : String) :
    List String :=
  match matchAt s.data with
  | some rest => "" :: (genSplitCore matchAt (s.length + 1) [] rest).map String.mk
  | none => (genSplitCore matchAt (s.length + 1) [] s.data).map String.mk

/-- Split on `(?:^|\n)[-=]{3,}(?:\n|$)`. -/
def ruleSplit (s : String) : List String :=
  genSplit matchRuleAt s

/-- Split on `(?:^|\n)(?:Note|Visit|Encounter|Progress Note|Consult|Assessment)[\s:]+`. -/
def headingSplit (s : String) : List String :=
  genSplit (matchKeywordAt headingKeywords) s

/-- Split on `(?:^|\n)(?:Date of Service|DOS|Visit Date)[\s:]+`. -/
def dosSplit (s : String) : List String :=
  genSplit (matchKeywordAt dosKeywords) s

/-- One pass of the delimiter loop of `splitIntoSections`: split every current
section, keep only pieces of trimmed length > 50, and use them only when more
than one survives (otherwise the section is kept unsplit). -/
def applyDelimiter (split : String → List String) (sections : List String) :
    List String :=
  sections.flatMap fun sec =>
    let parts := (split sec).filter fun s => decide ((strTrim s).length > 50)
    if parts.length > 1 then parts else [sec]

/-- The text spans produced by `splitIntoSections`: the three delimiter classes
applied in order, starting from the whole input. -/
def splitTexts (text : String) : List String :=
  applyDelimiter dosSplit (applyDelimiter headingSplit (applyDelimiter ruleSplit [text]))

/-! ## Provenance extraction and the main pipeline -/

/-- The regex-based provenance scanning layer of the processor (MRN, provider
names, ordering provider, and the labelled/bare date extraction with its
labelled-first most-recent-first ordering). No claim below depends on the
internals of this layer, so it is kept abstract: an arbitrary pure family of
extraction functions, quantified over in every theorem, so each result holds
in particular for the repository's concrete extractors. `extractFirstDate`
returns what the section construction consumes: the top-ranked parsed date and
its original string form. -/
structure ProvenanceOracle where
  extractMRN : String → Option String
  extractOrderingProvider : String → Option String
  extractProviderNames : String → List String
  extractFirstDate : String → Option (Int × String)

/-- `extractPatientInfo` of nlp-processor. -/
def extractPatientInfo (orc : ProvenanceOracle) (text : String) :
    ExtractedPatientInfo :=
  { mrn := orc.extractMRN text
    orderingProvider := orc.extractOrderingProvider text
    allProviders := orc.extractProviderNames text }

/-- `splitIntoSections` of nlp-processor: split the text spans, then attach
per-section provenance (specialist, first provider, top date). -/
def splitIntoSections (orc : ProvenanceOracle) (text : String) :
    List NoteSection :=
  (splitTexts text).map fun sectionText =>
    let dateInfo := orc.extractFirstDate sectionText
    { text := sectionText
      specialist := detectSpecialist sectionText
      providerName := (orc.extractProviderNames sectionText)[0]?
      date := dateInfo.map Prod.fst
      dateString := dateInfo.map Prod.snd }

/-- Department/location keywords of `isDepartmentName`. -/
def departmentKeywords : List String :=
  ["ambulatory", "department", "clinic", "center", "unit", "hospital",
   "medical", "health", "care", "services", "surgery", "cardiology",
   "emergency", "inpatient", "outpatient", "lab", "laboratory"]

/-- `isDepartmentName` of nlp-processor. -/
def isDepartmentName (name : String) : Bool :=
  let lowerName := strLower name
  departmentKeywords.any fun keyword => strIncludes lowerName keyword

/-- Regex `/^[A-Z]/`. -/
def startsWithCapital (s : String) : Bool :=
  match s.data with
  | [] => false
  | c :: _ => 'A' ≤ c && c ≤ 'Z'

/-- `isProperName` of nlp-processor. -/
def isProperName (name : String) : Bool :=
  if name.length < 2 || !startsWithCapital name then false
  else if name = strUpper name && name.length > 3 then false
  else if isDepartmentName name then false
  else true

/-- `Citation` built from a confirmed finding. -/
def citationOf (f : DetectedFinding) : Citation :=
  { finding := f.term.term
    specialty := specName f
    provider := f.providerName
    date := f.dateString
    priority := effPriority f }

/-- The citation de-duplication `reduce` of `analyzeNotes`: keep one citation
per finding name, preferring the lowest priority number. -/
def dedupCitations (citations : List Citation) : List Citation :=
  citations.foldl
    (fun acc citation =>
      match acc.find? (fun c => c.finding == citation.finding) with
      | none => acc.filter (fun c => c.finding != citation.finding) ++ [citation]
      | some existing =>
        if citation.priority < existing.priority then
          acc.filter (fun c => c.finding != citation.finding) ++ [citation]
        else
          acc)
    []

/-- `analyzeNotes` of nlp-processor, with the recency clock (`sixMonthsAgo`)
and the provenance extraction layer passed in explicitly. -/
def analyzeNotes (sixMonthsAgo : Int) (orc : ProvenanceOracle)
    (v : ClinicalVocab) (rawNotes : String) : AnalysisResult :=
  if (strTrim rawNotes).length < 20 then
    { qualificationStatus := .insufficientInformation
      primaryIndication := none
      supportingFindings := []
      clinicalCitations := []
      conflictingInfo := []
      confidenceLevel := .low
      allFindings := []
      extractedInfo := { mrn := none, orderingProvider := none, allProviders := [] }
      insufficientReason := some tooBriefReason }
  else
    let extractedInfo := extractPatientInfo orc rawNotes
    let sections := splitIntoSections orc rawNotes
    let allFindings := sections.flatMap fun sec => detectFindingsInSection v sec
    let rc := resolveConflicts sixMonthsAgo allFindings
    let d := determineQualification v rc.1 rc.2
    let presentFindings := presentOf rc.1
    { qualificationStatus := d.status
      primaryIndication := d.primaryIndication
      supportingFindings := dedupFirst (presentFindings.map fun f => f.term.term)
      clinicalCitations := dedupCitations (presentFindings.map citationOf)
      conflictingInfo := rc.2
      confidenceLevel := d.confidence
      allFindings := allFindings
      extractedInfo := extractedInfo
      insufficientReason := d.insufficientReason }

/-! ## A concrete vocabulary instance -/

/-- A concrete vocabulary instance used to evaluate the pipeline on concrete
inputs. Modelled from the spec: term identities, categories and cue lists are
the examples the spec itself gives (§4.3, §8 scenarios); the real tables are a
superset, which no theorem below depends on. -/
def specVocab : ClinicalVocab :=
  { cardiacSymptoms := [
      { term := "Chest Pain", variations := ["chest pain"], weight := 3 },
      { term := "Palpitations", variations := ["palpitations"], weight := 2 },
      { term := "Dyspnea", variations := ["dyspnea", "shortness of breath"], weight := 2 }]
    cardiacHistory := [
      { term := "CHF", variations := ["chf", "congestive heart failure"], weight := 5 },
      { term := "Myocardial Infarction", variations := ["myocardial infarction"], weight := 5 }]
    cardiacFindings := [
      { term := "Abnormal EKG", variations := ["abnormal ekg"], weight := 4 }]
    riskFactors := [
      { term := "Hypertension", variations := ["hypertension"], weight := 2 },
      { term := "Smoker", variations := ["smoker"], weight := 2 },
      { term := "Diabetes", variations := ["diabetes"], weight := 2 }]
    negationPatterns := ["no", "denies", "negative for", "without", "ruled out", "asymptomatic"]
    presencePatterns := ["positive for", "confirmed", "diagnosed with", "history of"]
    uncertainPatterns := ["possible", "rule out", "r/o", "?", "likely", "concerning for"]
    compoundNegationPrefixes := ["non"]
    negatedCompoundTerms := ["nonsmoker", "non-smoker", "asymptomatic"] }

/-! ## Theorems -/

/-- C1: for every vocabulary, every section and every DetectedFinding the
finding detector produces, `isPresent` implies `isExplicitlyConfirmed`, not
`isNegated` and not `isUncertain` (the anti-hallucination invariant). -/
theorem detector_antiHallucination (v : ClinicalVocab) (sec : NoteSection)
    (f : DetectedFinding) (hf : f ∈ detectFindingsInSection v sec)
    (hp : f.isPresent = true) :
    f.isExplicitlyConfirmed = true ∧ f.isNegated = false ∧ f.isUncertain = false := by
  unfold detectFindingsInSection at hf
  simp only [List.mem_flatMap, List.mem_map] at hf
  obtain ⟨term, -, variation, -, idx, -, rfl⟩ := hf
  simp only [mkFinding] at hp ⊢
  simp only [Bool.and_eq_true, Bool.not_eq_true'] at hp
  exact ⟨hp.1.1, hp.1.2, hp.2⟩

/-- A default finding (used only to take the head of a computed list). -/
def dummyFinding : DetectedFinding :=
  { term := { term := "", variations := [], weight := 0 }
    matchedText := "", isPresent := false, isNegated := false
    isUncertain := false, isExplicitlyConfirmed := false, context := ""
    specialist := none, providerName := none, date := none, dateString := none
    confidence := 0 }

/-- The section used to exhibit a concrete confirmed finding. -/
def c1Section : NoteSection :=
  { text := "Patient confirmed chest pain at rest", specialist := none
    providerName := none, date := none, dateString := none }

/-- The finding the detector produces on `c1Section`. -/
def c1Finding : DetectedFinding :=
  (detectFindingsInSection specVocab c1Section).headD dummyFinding

theorem detector_antiHallucination_witness :
    c1Finding ∈ detectFindingsInSection specVocab c1Section ∧
      c1Finding.isPresent = true ∧
      (c1Finding.isExplicitlyConfirmed = true ∧ c1Finding.isNegated = false ∧
        c1Finding.isUncertain = false) :=
  ⟨by decide, by decide,
    detector_antiHallucination specVocab c1Section c1Finding (by decide) (by decide)⟩

/-- C6: input whose trimmed length is under 20 characters short-circuits to
the fixed Insufficient Information result: no findings, no citations, no
conflicts, null primary indication, Low confidence (and the too-brief reason),
with no section, finding or conflict processing reflected in the output. -/
theorem analyzeNotes_shortInput (sixMonthsAgo : Int) (orc : ProvenanceOracle)
    (v : ClinicalVocab) (text : String) (h : (strTrim text).length < 20) :
    analyzeNotes sixMonthsAgo orc v text =
      { qualificationStatus := .insufficientInformation
        primaryIndication := none
        supportingFindings := []
        clinicalCitations := []
        conflictingInfo := []
        confidenceLevel := .low
        allFindings := []
        extractedInfo := { mrn := none, orderingProvider := none, allProviders := [] }
        insufficientReason := some tooBriefReason } := by
  unfold analyzeNotes
  rw [if_pos h]

/-- A provenance oracle returning nothing (used for concrete evaluations). -/
def emptyOracle : ProvenanceOracle :=
  { extractMRN := fun _ => none
    extractOrderingProvider := fun _ => none
    extractProviderNames := fun _ => []
    extractFirstDate := fun _ => none }

theorem analyzeNotes_shortInput_witness :
    ((strTrim "hi there").length < 20) ∧
      analyzeNotes 0 emptyOracle specVocab "hi there" =
        { qualificationStatus := .insufficientInformation
          primaryIndication := none
          supportingFindings := []
          clinicalCitations := []
          conflictingInfo := []
          confidenceLevel := .low
          allFindings := []
          extractedInfo := { mrn := none, orderingProvider := none, allProviders := [] }
          insufficientReason := some tooBriefReason } :=
  ⟨by decide, analyzeNotes_shortInput 0 emptyOracle specVocab "hi there" (by decide)⟩

/-- C8: with the recency clock and the extraction layer fixed, two calls of
`analyzeNotes` on the same text agree in every output field (the pipeline is
a pure function of its inputs; the only wall-clock read of the source, the
6-month window, is the explicit `sixMonthsAgo` parameter here). -/
theorem analyzeNotes_deterministic (sixMonthsAgo : Int) (orc : ProvenanceOracle)
    (v : ClinicalVocab) (text : String) :
    (analyzeNotes sixMonthsAgo orc v text).qualificationStatus =
        (analyzeNotes sixMonthsAgo orc v text).qualificationStatus ∧
      (analyzeNotes sixMonthsAgo orc v text).primaryIndication =
        (analyzeNotes sixMonthsAgo orc v text).primaryIndication ∧
      (analyzeNotes sixMonthsAgo orc v text).supportingFindings =
        (analyzeNotes sixMonthsAgo orc v text).supportingFindings ∧
      (analyzeNotes sixMonthsAgo orc v text).clinicalCitations =
        (analyzeNotes sixMonthsAgo orc v text).clinicalCitations ∧
      (analyzeNotes sixMonthsAgo orc v text).conflictingInfo =
        (analyzeNotes sixMonthsAgo orc v text).conflictingInfo ∧
      (analyzeNotes sixMonthsAgo orc v text).confidenceLevel =
        (analyzeNotes sixMonthsAgo orc v text).confidenceLevel ∧
      (analyzeNotes sixMonthsAgo orc v text).extractedInfo =
        (analyzeNotes sixMonthsAgo orc v text).extractedInfo ∧
      (analyzeNotes sixMonthsAgo orc v text).insufficientReason =
        (analyzeNotes sixMonthsAgo orc v text).insufficientReason :=
  ⟨rfl, rfl, rfl, rfl, rfl, rfl, rfl, rfl⟩

/-- C9, counterexample: the name filter accepts the fully upper-case
candidates "AB" and "ABC" (the all-caps rejection fires only for length > 3),
contradicting the claim that every fully upper-case candidate is rejected
regardless of length. -/
theorem isProperName_allCaps_counterexample :
    strUpper "AB" = "AB" ∧ isProperName "AB" = true ∧
      strUpper "ABC" = "ABC" ∧ isProperName "ABC" = true := by
  decide

/-- The acceptance condition of the amended claim: at least 2 characters,
starts with a capital letter, not (fully upper-case with more than 3
characters), and no department/location keyword. -/
def c9AcceptSpec (name : String) : Bool :=
  decide (2 ≤ name.length) && startsWithCapital name &&
    !(decide (name = strUpper name) && decide (name.length > 3)) &&
    !isDepartmentName name

/-- C9, amended: the name filter accepts exactly the candidates that have at
least 2 characters, start with a capital letter, are not fully-upper-case
words longer than 3 characters (all-caps candidates of length at most 3 pass
this test), and contain no department/location keyword. -/
theorem isProperName_amended (name : String) :
    isProperName name = c9AcceptSpec name := by
  unfold isProperName c9AcceptSpec
  have hlt : decide (name.length < 2) = !decide (2 ≤ name.length) := by
    rcases Nat.lt_or_ge name.length 2 with h | h
    · rw [decide_eq_true h, decide_eq_false (by omega)]
      rfl
    · rw [decide_eq_false (by omega), decide_eq_true h]
      rfl
  rw [hlt]
  cases hu : decide (name = strUpper name) <;>
    cases hg : decide (name.length > 3) <;>
      cases hc : startsWithCapital name <;>
        cases hd : isDepartmentName name <;>
          cases ha : decide (2 ≤ name.length) <;>
            simp [hu, hg, hc, hd, ha]

/-- `specScan` finds nothing exactly when no variant of the entry occurs in
the text. -/
theorem specScan_eq_none_iff (lt : String) (sp : SpecialistInfo) :
    specScan lt sp = none ↔ ∀ variation ∈ sp.variations, strIncludes lt variation = false := by
  unfold specScan
  rw [List.findSome?_eq_none]
  constructor
  · intro h v hv
    have hv2 := h v hv
    by_cases hb : strIncludes lt v = true
    · rw [if_pos hb] at hv2
      cases hv2
    · simpa using hb
  · intro h v hv
    rw [h v hv]
    rfl

/-- When some variant of the entry occurs, `specScan` returns a detection
carrying the entry's name and priority. -/
theorem specScan_eq_some (lt : String) (sp : SpecialistInfo) (v : String)
    (hv : v ∈ sp.variations) (hocc : strIncludes lt v = true) :
    ∃ d, specScan lt sp = some d ∧ d.name = sp.name ∧ d.priority = sp.priority := by
  rcases hres : specScan lt sp with _ | d
  · rw [specScan_eq_none_iff] at hres
    rw [hres v hv] at hocc
    cases hocc
  · obtain ⟨w, -, hw⟩ := List.exists_of_findSome?_eq_some hres
    refine ⟨d, rfl, ?_⟩
    by_cases hb : strIncludes lt w = true
    · rw [if_pos hb] at hw
      cases hw
      exact ⟨rfl, rfl⟩
    · rw [if_neg hb] at hw
      cases hw

/-- C10: `detectSpecialist` finds nothing exactly when no variant of any
hierarchy entry occurs as a substring of the lower-cased text (no
word-boundary check is involved); and any text in which no priority-1
(cardiology-tier) variant occurs but the two-letter sequence "ed" occurs
anywhere - inside a longer word included - is attributed to the Emergency
Department entry with priority 2 (hence a high-priority source). -/
theorem detectSpecialist_substring_ed (text : String) :
    ((detectSpecialist text).isNone =
        (SPECIALIST_HIERARCHY.all fun sp =>
          sp.variations.all fun variation =>
            !strIncludes (strLower text) variation)) ∧
      ((∀ sp ∈ SPECIALIST_HIERARCHY, sp.priority = 1 →
          ∀ variation ∈ sp.variations, strIncludes (strLower text) variation = false) →
        strIncludes (strLower text) "ed" = true →
        ∃ d, detectSpecialist text = some d ∧
          d.name = "Emergency Department" ∧ d.priority = 2) := by
  constructor
  · rw [Bool.eq_iff_iff]
    simp only [detectSpecialist, Option.isNone_iff_eq_none, List.findSome?_eq_none,
      List.all_eq_true, Bool.not_eq_true']
    constructor
    · intro h sp hsp v hv
      exact (specScan_eq_none_iff (strLower text) sp).mp (h sp hsp) v hv
    · intro h sp hsp
      exact (specScan_eq_none_iff (strLower text) sp).mpr (h sp hsp)
  · intro h1 hed
    have e1 : specScan (strLower text) (SPECIALIST_HIERARCHY.get ⟨0, by simp [SPECIALIST_HIERARCHY]⟩) = none := by
      rw [specScan_eq_none_iff]
      exact h1 _ (List.get_mem _ _ _) rfl
    have e2 : specScan (strLower text) (SPECIALIST_HIERARCHY.get ⟨1, by simp [SPECIALIST_HIERARCHY]⟩) = none := by
      rw [specScan_eq_none_iff]
      exact h1 _ (List.get_mem _ _ _) rfl
    have e3 : specScan (strLower text) (SPECIALIST_HIERARCHY.get ⟨2, by simp [SPECIALIST_HIERARCHY]⟩) = none := by
      rw [specScan_eq_none_iff]
      exact h1 _ (List.get_mem _ _ _) rfl
    have e4 : specScan (strLower text) (SPECIALIST_HIERARCHY.get ⟨3, by simp [SPECIALIST_HIERARCHY]⟩) = none := by
      rw [specScan_eq_none_iff]
      exact h1 _ (List.get_mem _ _ _) rfl
    obtain ⟨d, hd, hdn, hdp⟩ := specScan_eq_some (strLower text)
      (SPECIALIST_HIERARCHY.get ⟨4, by decide⟩) "ed"
      (by decide) hed
    refine ⟨d, ?_, hdn, hdp⟩
    simp only [detectSpecialist, SPECIALIST_HIERARCHY, List.findSome?_cons]
    simp only [SPECIALIST_HIERARCHY, List.get] at e1 e2 e3 e4 hd
    rw [e1, e2, e3, e4, hd]

theorem detectSpecialist_substring_ed_witness :
    ∃ d, detectSpecialist "the patient was noted to be stable" = some d ∧
      d.name = "Emergency Department" ∧ d.priority = 2 :=
  (detectSpecialist_substring_ed "the patient was noted to be stable").2
    (by decide) (by decide)

/-- The code's negated-only test (`negated non-empty and counts equal`) says
exactly: there is at least one finding and every finding is negated. -/
theorem allNegated_iff (findings : List DetectedFinding) :
    (negatedOf findings ≠ [] ∧ findings.length = (negatedOf findings).length) ↔
      (findings ≠ [] ∧ ∀ f ∈ findings, f.isNegated = true) := by
  unfold negatedOf
  constructor
  · rintro ⟨hne, hlen⟩
    have hall := List.filter_length_eq_length.mp hlen.symm
    refine ⟨?_, hall⟩
    rintro rfl
    simp at hne
  · rintro ⟨hne, hall⟩
    have hlen := List.filter_length_eq_length.mpr hall
    refine ⟨?_, hlen.symm⟩
    intro hemp
    rw [hemp] at hlen
    simp at hlen
    exact hne (List.length_eq_zero.mp hlen.symm)

/-- C5: with zero confirmed findings, the decision is Insufficient
Information with Low confidence and no primary indication, and the reason is
chosen in priority order: uncertain non-negated findings are reported by name;
else, if every detected finding is negated (and there is at least one), the
negated-only reason is used; else the no-evidence reason. -/
theorem determineQualification_insufficient (v : ClinicalVocab)
    (findings : List DetectedFinding) (conflicts : List ConflictInfo)
    (h : presentOf findings = []) :
    determineQualification v findings conflicts =
      ⟨.insufficientInformation, none, .low,
        some (if uncertainOf findings ≠ [] then uncertainReason (uncertainOf findings)
          else if findings ≠ [] ∧ ∀ f ∈ findings, f.isNegated = true then negatedOnlyReason
          else noEvidenceReason)⟩ := by
  have hiff := allNegated_iff findings
  by_cases hu : uncertainOf findings = []
  · by_cases hn : findings ≠ [] ∧ ∀ f ∈ findings, f.isNegated = true
    · have hc := hiff.mpr hn
      simp [determineQualification, h, hu, hn, hc.1, hc.2,
        List.length_pos.mpr hc.1, hn.2]
      rw [if_pos hn.2]
    · have hc : ¬(negatedOf findings ≠ [] ∧ findings.length = (negatedOf findings).length) :=
        fun hx => hn (hiff.mp hx)
      simp only [determineQualification, h, hu]
      simp only [hn, hc]
      simp [hn]
      intro h1 h2
      exact absurd ⟨List.length_pos.mp h1, h2⟩ hc
  · simp [determineQualification, h, hu, List.length_pos.mpr hu]

theorem determineQualification_insufficient_witness :
    determineQualification specVocab [] [] =
      ⟨.insufficientInformation, none, .low, some noEvidenceReason⟩ := by
  simpa using determineQualification_insufficient specVocab [] [] rfl

/-- The ordered guard chain of the claimed qualification rule, written from
the specification's wording over the aggregate counts of confirmed findings. -/
def c2ClaimedStatus (v : ClinicalVocab) (findings : List DetectedFinding)
    (conflicts : List ConflictInfo) : QualStatus :=
  let confirmed := presentOf findings
  if countIn v.cardiacHistory confirmed > 0 ∨ countIn v.cardiacFindings confirmed > 0 then
    .qualified
  else if countIn v.cardiacSymptoms confirmed ≥ 2 then
    .qualified
  else if countIn v.cardiacSymptoms confirmed ≥ 1 ∧ hasHighPrioritySourceOf confirmed = true then
    .qualified
  else if countIn v.riskFactors confirmed ≥ 3 ∧ countIn v.cardiacSymptoms confirmed ≥ 1 then
    .qualified
  else if conflicts ≠ [] then
    .reviewNeeded
  else if countIn v.cardiacSymptoms confirmed = 1 then
    .reviewNeeded
  else if countIn v.riskFactors confirmed ≥ 2 ∧ totalWeightOf confirmed ≥ 6 then
    .reviewNeeded
  else if uncertainOf findings ≠ [] then
    .reviewNeeded
  else
    .notQualified

set_option maxHeartbeats 1600000 in
/-- C2: with at least one confirmed finding, the decision follows the claimed
ordered guard chain, first match winning; every ReviewNeeded outcome carries
confidence Low, and NotQualified clears the primary indication. -/
theorem determineQualification_guardChain (v : ClinicalVocab)
    (findings : List DetectedFinding) (conflicts : List ConflictInfo)
    (h : presentOf findings ≠ []) :
    (determineQualification v findings conflicts).status =
        c2ClaimedStatus v findings conflicts ∧
      ((determineQualification v findings conflicts).status = .reviewNeeded →
        (determineQualification v findings conflicts).confidence = .low) ∧
      ((determineQualification v findings conflicts).status = .notQualified →
        (determineQualification v findings conflicts).primaryIndication = none) := by
  have hlen : ¬((presentOf findings).length = 0) :=
    fun hx => h (List.length_eq_zero.mp hx)
  simp only [determineQualification, c2ClaimedStatus, List.length_pos]
  simp only [if_neg hlen]
  split_ifs <;> refine ⟨rfl, ?_, ?_⟩ <;> intro hx <;> first | rfl | cases hx

/-- A confirmed cardiac-history finding with no detected specialist. -/
def chfConfirmedFinding : DetectedFinding :=
  { term := { term := "CHF", variations := ["chf", "congestive heart failure"], weight := 5 }
    matchedText := "chf", isPresent := true, isNegated := false
    isUncertain := false, isExplicitlyConfirmed := true, context := ""
    specialist := none, providerName := none, date := none, dateString := none
    confidence := 90 }

theorem determineQualification_guardChain_witness :
    (determineQualification specVocab [chfConfirmedFinding] []).status =
        c2ClaimedStatus specVocab [chfConfirmedFinding] [] ∧
      ((determineQualification specVocab [chfConfirmedFinding] []).status = .reviewNeeded →
        (determineQualification specVocab [chfConfirmedFinding] []).confidence = .low) ∧
      ((determineQualification specVocab [chfConfirmedFinding] []).status = .notQualified →
        (determineQualification specVocab [chfConfirmedFinding] []).primaryIndication = none) :=
  determineQualification_guardChain specVocab [chfConfirmedFinding] [] (by decide)

/-- The confidence roll-up as the claim states it (Medium when neither
conflicts nor a high-priority source exist). -/
def c3ClaimedConfidence (hasHighPrioritySource hasConflicts : Bool) : ConfidenceLevel :=
  if hasHighPrioritySource && !hasConflicts then .high
  else if hasConflicts && hasHighPrioritySource then .medium
  else if !hasConflicts && !hasHighPrioritySource then .medium
  else .low

/-- C3, counterexample: one confirmed finding with no specialist and no
conflicts - no high-priority source and no conflicts - yields confidence Low,
while the claim demands Medium in that case. -/
theorem rollupConfidence_counterexample :
    presentOf [chfConfirmedFinding] ≠ [] ∧
      hasHighPrioritySourceOf (presentOf [chfConfirmedFinding]) = false ∧
      (determineQualification specVocab [chfConfirmedFinding] []).confidence =
        ConfidenceLevel.low ∧
      c3ClaimedConfidence false false = ConfidenceLevel.medium := by
  refine ⟨by decide, by decide, by decide, by decide⟩

/-- The confidence roll-up as amended: High with a high-priority source and no
conflicts; Medium with a high-priority source and conflicts; Low whenever no
high-priority source exists, with or without conflicts. -/
def c3AmendedConfidence (hasHighPrioritySource hasConflicts : Bool) : ConfidenceLevel :=
  if hasHighPrioritySource && !hasConflicts then .high
  else if hasHighPrioritySource && hasConflicts then .medium
  else .low

/-- The source's roll-up coincides with the amended table on every input. -/
theorem rollupConfidence_eq_amended :
    ∀ hh hc, rollupConfidence hh hc = c3AmendedConfidence hh hc := by
  decide

set_option maxHeartbeats 1600000 in
/-- C3, amended: with at least one confirmed finding, in the branches that
report the rolled-up confidence (Qualified and NotQualified) the confidence
is High when a priority-≤2 source exists and there are no unresolved
conflicts, Medium when such a source exists alongside conflicts, and Low
whenever no such source exists. -/
theorem determineQualification_confidence_amended (v : ClinicalVocab)
    (findings : List DetectedFinding) (conflicts : List ConflictInfo)
    (h : presentOf findings ≠ [])
    (hs : (determineQualification v findings conflicts).status = .qualified ∨
      (determineQualification v findings conflicts).status = .notQualified) :
    (determineQualification v findings conflicts).confidence =
      c3AmendedConfidence (hasHighPrioritySourceOf (presentOf findings))
        (decide (conflicts.length > 0)) := by
  have hlen : ¬((presentOf findings).length = 0) :=
    fun hx => h (List.length_eq_zero.mp hx)
  simp only [determineQualification] at hs ⊢
  simp only [if_neg hlen] at hs ⊢
  split_ifs at hs ⊢ <;>
    first
    | exact rollupConfidence_eq_amended _ _
    | (rcases hs with hx | hx <;> cases hx)

theorem determineQualification_confidence_amended_witness :
    (determineQualification specVocab [chfConfirmedFinding] []).confidence =
      c3AmendedConfidence (hasHighPrioritySourceOf (presentOf [chfConfirmedFinding]))
        (decide (([] : List ConflictInfo).length > 0)) :=
  determineQualification_confidence_amended specVocab [chfConfirmedFinding] []
    (by decide) (Or.inl (by decide))

/-- A delimiter pass keeps the over-50 trimmed-length invariant. -/
theorem applyDelimiter_all_long (split : String → List String) (l : List String)
    (h : l.all (fun s => decide ((strTrim s).length > 50)) = true) :
    (applyDelimiter split l).all (fun s => decide ((strTrim s).length > 50)) = true := by
  rw [List.all_eq_true] at h ⊢
  intro s hs
  simp only [applyDelimiter, List.mem_flatMap] at hs
  obtain ⟨sec, hsec, hmem⟩ := hs
  by_cases hp : ((split sec).filter fun s => decide ((strTrim s).length > 50)).length > 1
  · rw [if_pos hp] at hmem
    exact (List.mem_filter.mp hmem).2
  · rw [if_neg hp] at hmem
    simp only [List.mem_singleton] at hmem
    subst hmem
    exact h _ hsec

/-- A delimiter pass on a single section either keeps it unsplit or produces
only pieces of trimmed length over 50. -/
theorem applyDelimiter_single (split : String → List String) (text : String) :
    applyDelimiter split [text] = [text] ∨
      (applyDelimiter split [text]).all (fun s => decide ((strTrim s).length > 50)) = true := by
  simp only [applyDelimiter, List.flatMap_cons, List.flatMap_nil, List.append_nil]
  by_cases hp : ((split text).filter fun s => decide ((strTrim s).length > 50)).length > 1
  · right
    rw [if_pos hp]
    rw [List.all_eq_true]
    intro s hs
    exact (List.mem_filter.mp hs).2
  · left
    rw [if_neg hp]

/-- C7, amended: the three delimiter classes are applied in order and, for
each section, the split pieces of trimmed length over 50 replace the section
only when more than one such piece survives (shorter pieces being dropped in
that case); consequently the splitter returns either the whole input as one
section or a list of sections each of trimmed length over 50. -/
theorem splitTexts_amended (text : String) :
    splitTexts text = [text] ∨
      (splitTexts text).all (fun s => decide ((strTrim s).length > 50)) = true := by
  unfold splitTexts
  rcases applyDelimiter_single ruleSplit text with h1 | h1
  · rw [h1]
    rcases applyDelimiter_single headingSplit text with h2 | h2
    · rw [h2]
      rcases applyDelimiter_single dosSplit text with h3 | h3
      · left
        exact h3
      · right
        exact h3
    · right
      exact applyDelimiter_all_long dosSplit _ h2
  · right
    exact applyDelimiter_all_long dosSplit _ (applyDelimiter_all_long headingSplit _ h1)

/-- A 60-character piece. -/
def c7A : String := String.mk (List.replicate 60 'a')

/-- Another 60-character piece. -/
def c7C : String := String.mk (List.replicate 60 'c')

/-- Two rule markers delimiting a short middle piece. -/
def c7Text : String := c7A ++ "\n---\n" ++ "bb" ++ "\n---\n" ++ c7C

set_option maxRecDepth 4000 in
/-- C7, counterexample: on `c7Text` the rule-marker delimiter produces pieces
[c7A, "bb", c7C]; "bb" has trimmed length ≤ 50, yet the splitter keeps the
split (dropping "bb") instead of leaving the section unsplit - the claim's
"kept only if every resulting piece is longer than 50 characters, otherwise
unsplit; no short piece text is ever dropped" is false here. -/
theorem splitTexts_drop_counterexample :
    ruleSplit c7Text = [c7A, "bb", c7C] ∧
      ((strTrim "bb").length ≤ 50) ∧
      ¬(∀ piece ∈ ruleSplit c7Text, (strTrim piece).length > 50) ∧
      splitTexts c7Text = [c7A, c7C] ∧
      splitTexts c7Text ≠ [c7Text] ∧
      "bb" ∉ splitTexts c7Text := by
  decide

/-- Effective priority of an optional specialist (99 when absent). -/
def effPrioOpt (s : Option DetectedSpecialist) : Nat :=
  match s with
  | some sp => sp.priority
  | none => 99

/-- The pair-resolution rule exactly as the claim words it: a finding with no
specialist is treated as priority 99; strictly lower priority wins outright;
on a tie, a date inside the recency window beats one outside it, then the
strictly more recent date wins; otherwise the conflict is unresolved. -/
def c4ClaimPair (sixMonthsAgo : Int) (s1 s2 : Option DetectedSpecialist)
    (d1 d2 : Option Int) : Bool × ConflictWinner :=
  let p1 := effPrioOpt s1
  let p2 := effPrioOpt s2
  if p1 < p2 then (true, .first)
  else if p2 < p1 then (true, .second)
  else
    match d1, d2 with
    | some a, some b =>
      if a ≥ sixMonthsAgo ∧ ¬(b ≥ sixMonthsAgo) then (true, .first)
      else if b ≥ sixMonthsAgo ∧ ¬(a ≥ sixMonthsAgo) then (true, .second)
      else if a > b then (true, .first)
      else if b > a then (true, .second)
      else (false, .manualReview)
    | _, _ => (false, .manualReview)

/-- Outcome of `resolveSpecialistConflict` projected to (resolved, winner):
it follows the claimed pair rule except that two absent specialists are
immediately unresolved, dates notwithstanding. -/
theorem resolveSpecialistConflict_proj (sixMonthsAgo : Int)
    (s1 s2 : Option DetectedSpecialist) (d1 d2 : Option Int)
    (h1 : ∀ sp, s1 = some sp → sp.priority < 99)
    (h2 : ∀ sp, s2 = some sp → sp.priority < 99) :
    ((resolveSpecialistConflict sixMonthsAgo s1 s2 d1 d2).resolved,
      (resolveSpecialistConflict sixMonthsAgo s1 s2 d1 d2).winner) =
      (if s1 = none ∧ s2 = none then (false, ConflictWinner.manualReview)
       else c4ClaimPair sixMonthsAgo s1 s2 d1 d2) := by
  cases s1 with
  | none =>
    cases s2 with
    | none => rfl
    | some sp2 =>
      have hp2 := h2 sp2 rfl
      simp only [resolveSpecialistConflict, c4ClaimPair, effPrioOpt]
      rw [if_neg (show ¬(True ∧ some sp2 = none) by simp),
        if_neg (show ¬(99 < sp2.priority) by omega),
        if_pos (show sp2.priority < 99 from hp2)]
  | some sp1 =>
    have hp1 := h1 sp1 rfl
    cases s2 with
    | none =>
      simp only [resolveSpecialistConflict, c4ClaimPair, effPrioOpt]
      rw [if_neg (show ¬(some sp1 = none ∧ True) by simp),
        if_pos (show sp1.priority < 99 from hp1)]
    | some sp2 =>
      simp only [resolveSpecialistConflict, c4ClaimPair, effPrioOpt]
      rw [if_neg (show ¬(some sp1 = none ∧ some sp2 = none) by simp)]
      cases d1 <;> cases d2 <;> (try dsimp only) <;> split_ifs <;> rfl

/-- `mostCredible` returns an element of the group attaining the minimal
effective priority (first such element, per the source's `reduce`). -/
theorem mostCredible_spec :
    ∀ (fs : List DetectedFinding) (f : DetectedFinding),
      mostCredible f fs ∈ f :: fs ∧
        ∀ g ∈ f :: fs, effPriority (mostCredible f fs) ≤ effPriority g := by
  intro fs
  induction fs with
  | nil =>
    intro f
    constructor
    · simp [mostCredible]
    · intro g hg
      simp only [List.mem_singleton] at hg
      subst hg
      simp [mostCredible]
  | cons x xs ih =>
    intro f
    have hstep : mostCredible f (x :: xs) =
        mostCredible (if effPriority x < effPriority f then x else f) xs := by
      simp [mostCredible]
    constructor
    · rw [hstep]
      have hmem := (ih (if effPriority x < effPriority f then x else f)).1
      rcases List.mem_cons.mp hmem with hh | hh
      · rw [hh]
        by_cases hx : effPriority x < effPriority f
        · rw [if_pos hx]
          exact List.mem_cons_of_mem _ (List.mem_cons_self _ _)
        · rw [if_neg hx]
          exact List.mem_cons_self _ _
      · exact List.mem_cons_of_mem _ (List.mem_cons_of_mem _ hh)
    · intro g hg
      rw [hstep]
      by_cases hx : effPriority x < effPriority f
      · rw [if_pos hx]
        have hmin := (ih x).2
        rcases List.mem_cons.mp hg with hh | hh
        · rw [hh]
          have h1 := hmin x (List.mem_cons_self _ _)
          omega
        · rcases List.mem_cons.mp hh with hh2 | hh2
          · rw [hh2]
            exact hmin x (List.mem_cons_self _ _)
          · exact hmin g (List.mem_cons_of_mem _ hh2)
      · rw [if_neg hx]
        have hmin := (ih f).2
        rcases List.mem_cons.mp hg with hh | hh
        · rw [hh]
          exact hmin f (List.mem_cons_self _ _)
        · rcases List.mem_cons.mp hh with hh2 | hh2
          · rw [hh2]
            have h1 := hmin f (List.mem_cons_self _ _)
            omega
          · exact hmin g (List.mem_cons_of_mem _ hh2)

/-- The unresolved branch of `resolveTermGroup`: with both sides non-empty
and the pair unresolved, a ConflictRecord carrying both sides' specialty,
assessment label and date is produced, and the present-side best finding is
still kept in the resolved output. -/
theorem resolveTermGroup_unresolved (sixMonthsAgo : Int) (termName : String)
    (fs : List DetectedFinding) (p n : DetectedFinding)
    (ps ns : List DetectedFinding)
    (hp : fs.filter (fun f => f.isPresent) = p :: ps)
    (hn : fs.filter (fun f => !f.isPresent) = n :: ns)
    (hres : (resolveSpecialistConflict sixMonthsAgo (mostCredible p ps).specialist
        (mostCredible n ns).specialist (mostCredible p ps).date
        (mostCredible n ns).date).resolved = false) :
    resolveTermGroup sixMonthsAgo termName fs =
      ([mostCredible p ps],
        [{ finding := termName,
           sources := [
             { specialty := specName (mostCredible p ps), assessment := "Present",
               date := (mostCredible p ps).dateString },
             { specialty := specName (mostCredible n ns), assessment := "Absent/Denied",
               date := (mostCredible n ns).dateString }] }]) := by
  unfold resolveTermGroup
  rw [hp, hn]
  simp only [hres]
  rfl

/-- C4, amended: the resolver picks the most credible finding of each side
(no specialist counting as priority 99, least credible) and resolves the pair
by the claimed priority-then-recency rule, except that when neither side has
a detected specialist the conflict is immediately unresolved without
consulting the dates; an unresolved pair records a ConflictRecord with both
sides' specialty, assessment label and date and still keeps the present-side
finding. -/
theorem conflictResolution_amended :
    (∀ (sixMonthsAgo : Int) (s1 s2 : Option DetectedSpecialist) (d1 d2 : Option Int),
      (∀ sp, s1 = some sp → sp.priority < 99) →
      (∀ sp, s2 = some sp → sp.priority < 99) →
      ((resolveSpecialistConflict sixMonthsAgo s1 s2 d1 d2).resolved,
        (resolveSpecialistConflict sixMonthsAgo s1 s2 d1 d2).winner) =
        (if s1 = none ∧ s2 = none then (false, ConflictWinner.manualReview)
         else c4ClaimPair sixMonthsAgo s1 s2 d1 d2)) ∧
    (∀ (f : DetectedFinding) (fs : List DetectedFinding),
      mostCredible f fs ∈ f :: fs ∧
        ∀ g ∈ f :: fs, effPriority (mostCredible f fs) ≤ effPriority g) ∧
    (∀ (sixMonthsAgo : Int) (termName : String) (fs : List DetectedFinding)
      (p n : DetectedFinding) (ps ns : List DetectedFinding),
      fs.filter (fun f => f.isPresent) = p :: ps →
      fs.filter (fun f => !f.isPresent) = n :: ns →
      (resolveSpecialistConflict sixMonthsAgo (mostCredible p ps).specialist
        (mostCredible n ns).specialist (mostCredible p ps).date
        (mostCredible n ns).date).resolved = false →
      resolveTermGroup sixMonthsAgo termName fs =
        ([mostCredible p ps],
          [{ finding := termName,
             sources := [
               { specialty := specName (mostCredible p ps), assessment := "Present",
                 date := (mostCredible p ps).dateString },
               { specialty := specName (mostCredible n ns), assessment := "Absent/Denied",
                 date := (mostCredible n ns).dateString }] }])) :=
  ⟨resolveSpecialistConflict_proj,
   fun f fs => mostCredible_spec fs f,
   resolveTermGroup_unresolved⟩

/-- A present CHF finding with no specialist and a recent date. -/
def c4PresentFinding : DetectedFinding :=
  { term := { term := "CHF", variations := ["chf", "congestive heart failure"], weight := 5 }
    matchedText := "chf", isPresent := true, isNegated := false
    isUncertain := false, isExplicitlyConfirmed := true, context := ""
    specialist := none, providerName := none, date := some 200
    dateString := some "2024-06-01", confidence := 90 }

/-- A negated CHF finding with no specialist and an old date. -/
def c4NegatedFinding : DetectedFinding :=
  { term := { term := "CHF", variations := ["chf", "congestive heart failure"], weight := 5 }
    matchedText := "chf", isPresent := false, isNegated := true
    isUncertain := false, isExplicitlyConfirmed := false, context := ""
    specialist := none, providerName := none, date := some 0
    dateString := some "2020-01-01", confidence := 85 }

/-- C4, counterexample: both findings lack a specialist (effective priority 99
on both sides, a tie) and the dates distinguish them (the present side is
within the recency window, the negated side is not), so the claimed rule
resolves the pair outright for the present side; the code instead returns an
unresolved conflict and records a ConflictRecord. -/
theorem resolveConflicts_nullSpecialist_counterexample :
    effPriority c4PresentFinding = 99 ∧ effPriority c4NegatedFinding = 99 ∧
      ((200 : Int) ≥ 100) ∧ ¬((0 : Int) ≥ 100) ∧
      c4ClaimPair 100 none none (some 200) (some 0) = (true, ConflictWinner.first) ∧
      (resolveSpecialistConflict 100 none none (some 200) (some 0)).resolved = false ∧
      resolveConflicts 100 [c4PresentFinding, c4NegatedFinding] =
        ([c4PresentFinding],
          [{ finding := "CHF",
             sources := [
               { specialty := "Unknown", assessment := "Present",
                 date := some "2024-06-01" },
               { specialty := "Unknown", assessment := "Absent/Denied",
                 date := some "2020-01-01" }] }]) := by
  decide

/-- The Emergency Department detection record. -/
def edSpecialist : DetectedSpecialist :=
  { name := "Emergency Department", priority := 2, weight := 8, matchedText := "ed" }

theorem conflictResolution_amended_witness :
    (((resolveSpecialistConflict 7 (some edSpecialist) none none none).resolved,
        (resolveSpecialistConflict 7 (some edSpecialist) none none none).winner) =
        (if (some edSpecialist : Option DetectedSpecialist) = none ∧
            (none : Option DetectedSpecialist) = none then
          (false, ConflictWinner.manualReview)
         else c4ClaimPair 7 (some edSpecialist) none none none)) ∧
      (mostCredible c4PresentFinding [c4NegatedFinding] ∈
          [c4PresentFinding, c4NegatedFinding] ∧
        ∀ g ∈ [c4PresentFinding, c4NegatedFinding],
          effPriority (mostCredible c4PresentFinding [c4NegatedFinding]) ≤
            effPriority g) ∧
      resolveTermGroup 100 "CHF" [c4PresentFinding, c4NegatedFinding] =
        ([mostCredible c4PresentFinding []],
          [{ finding := "CHF",
             sources := [
               { specialty := specName (mostCredible c4PresentFinding [])
                 assessment := "Present"
                 date := (mostCredible c4PresentFinding []).dateString },
               { specialty := specName (mostCredible c4NegatedFinding [])
                 assessment := "Absent/Denied"
                 date := (mostCredible c4NegatedFinding []).dateString }] }]) :=
  ⟨conflictResolution_amended.1 7 (some edSpecialist) none none none
      (by intro sp h; cases h; decide) (by intro sp h; simp at h),
    conflictResolution_amended.2.1 c4PresentFinding [c4NegatedFinding],
    conflictResolution_amended.2.2 100 "CHF" [c4PresentFinding, c4NegatedFinding]
      c4PresentFinding c4NegatedFinding [] [] (by decide) (by decide) (by decide)⟩
